import Mathlib

/-!
Shallow embedding of the core of the `visualize` application
(`src/visualize/file.py` and `src/visualize/visualize.py`), together with
theorems checking the natural-language specification against it.

Modelling conventions:
* Python exceptions are values of `PyErr`; `except Exception` catches only
  `PyErr.exc`, while `SystemExit` (raised by `sys.exit`) and
  `KeyboardInterrupt` escape such handlers, as in Python.
* A pandas `DataFrame` is a `Dataset`: ordered column names plus row-major
  cells; cell values are strings (their contents are never interpreted by
  the code under study, except that an empty string models a missing value).
* Interactive prompts are driven by explicit answer values (`Sel`,
  `Option String`, ...): `InquirerPy` selections can only return an element
  of the offered choices or raise `KeyboardInterrupt`.
* Console output is not tracked except where a claim depends on a message
  being reported; those messages appear in result constructors.
-/

set_option maxHeartbeats 1000000

namespace Visualize

/-- Python exceptions relevant to this program.  `exc` stands for any
instance of `Exception`; `SystemExit` and `KeyboardInterrupt` derive from
`BaseException` only, so an `except Exception:` clause does not catch them. -/
inductive PyErr where
  | keyboardInterrupt : PyErr
  | systemExit : String → PyErr
  | exc : String → PyErr
deriving DecidableEq, Repr

/-- Whether an error is caught by `except Exception:`. -/
def PyErr.isException : PyErr → Bool
  | .exc _ => true
  | _ => false

/-- A configuration value stored in the config dict of the handler
(the prompts only ever store strings and ints). -/
inductive Val where
  | s : String → Val
  | i : Int → Val
deriving DecidableEq, Repr

/-- A Python dict used as the parameter bag: association list in insertion
order, keys unique by construction of `dictSet`. -/
abbrev Config := List (String × Val)

/-- Source `d[k] = v`: replace in place if the key exists, else append (Python dict
assignment semantics). -/
def dictSet : Config → String → Val → Config
  | [], k, v => [(k, v)]
  | (k0, v0) :: t, k, v =>
      if k0 = k then (k0, v) :: t else (k0, v0) :: dictSet t k v

/-- Source `d.get(k)`. -/
def dictGet : Config → String → Option Val
  | [], _ => none
  | (k0, v0) :: t, k => if k0 = k then some v0 else dictGet t k

/-- Source `d.update(kwargs)`: assign every kwargs entry in order. -/
def dictUpdate (d kwargs : Config) : Config :=
  kwargs.foldl (fun a kv => dictSet a kv.1 kv.2) d

/-- In-memory tabular data: a pandas `DataFrame` with named columns and
row-major cells. -/
structure Dataset where
  cols : List String
  rows : List (List String)
deriving DecidableEq, Repr

/-- The values of one named column (row-major extraction). -/
def Dataset.colValues (d : Dataset) (c : String) : List String :=
  match d.cols.findIdx? (fun c0 => c0 = c) with
  | some i => d.rows.map (fun r => r.getD i "")
  | none => []

/-- Source `data[key]` on a DataFrame: returns the column name and its values, or
raises `KeyError` when the key is `None`, not a string, or not a column. -/
def getItem (d : Dataset) (k : Option Val) : Except String (String × List String) :=
  match k with
  | some (Val.s c) =>
      if d.cols.contains c then Except.ok (c, d.colValues c)
      else Except.error ("KeyError: " ++ c)
  | some (Val.i n) => Except.error ("KeyError: " ++ toString n)
  | none => Except.error "KeyError: None"

/-! ### file.py -/

/-- Source `FileExtension` enum (file.py). -/
inductive FileExtension where
  | CSV | EXCEL | EXCEL_OLD | JSON | TXT
deriving DecidableEq, Repr

/-- The `.value` strings of `FileExtension`. -/
def FileExtension.value : FileExtension → String
  | .CSV => ".csv"
  | .EXCEL => ".xlsx"
  | .EXCEL_OLD => ".xls"
  | .JSON => ".json"
  | .TXT => ".txt"

/-- Source `{ext.value for ext in FileExtension}` as a list. -/
def fileExtensionValues : List String :=
  [FileExtension.CSV.value, FileExtension.EXCEL.value, FileExtension.EXCEL_OLD.value,
   FileExtension.JSON.value, FileExtension.TXT.value]

/-- Source `pathlib.Path.suffix`: the extension of the final path component,
including the dot; empty when there is no dot strictly inside the name
(CPython computes the last dot index i and returns the slice from i when
0 < i < len(name) - 1, else the empty string). -/
def pathSuffix (p : String) : String :=
  let name := (p.toList.reverse.takeWhile (fun ch => ch ≠ '/')).reverse
  match name.reverse.findIdx? (fun ch => ch = '.') with
  | none => ""
  | some j =>
      let i := name.length - 1 - j
      if 0 < i ∧ i < name.length - 1 then String.mk (name.drop i) else ""

/-- Lowercasing of a string, character by character (used only to state
case-sensitivity properties about the source). -/
def strToLower (s : String) : String := String.mk (s.toList.map Char.toLower)

/-- Source `File` (file.py): wraps one path. -/
structure File where
  path : String
deriving DecidableEq, Repr

/-- Source `get_metadata()["extension"]`, i.e. `path.suffix`. -/
def File.extension (f : File) : String := pathSuffix f.path

/-- Source `File.validate_suffix` (file.py:181-205): the extension must be a member
of the literal set of `FileExtension` values; the comparison is plain string
equality, hence case-sensitive. -/
def File.validate_suffix (f : File) : Bool :=
  fileExtensionValues.contains f.extension

/-- What the filesystem and pandas do for one path: the file parses to a
dataset, is missing, is not a regular file, the reader raises a parse error,
or some other step (e.g. `stat` in `get_metadata` after validation) raises
an ordinary `Exception`. -/
inductive FileOutcome where
  | ok : Dataset → FileOutcome
  | missing
  | notFile
  | parseError : String → FileOutcome
  | otherExc : String → FileOutcome
deriving DecidableEq, Repr

/-- The environment: what loading each path would do. -/
abbrev Env := String → FileOutcome

/-- Source `File.__post_init__` (file.py:111-145): `sys.exit` when the path does not
exist or is not a regular file (every caught error is converted to
`sys.exit`); otherwise validation passes. -/
def post_init (o : FileOutcome) : Except PyErr Unit :=
  match o with
  | .missing => Except.error (PyErr.systemExit "An Error occur: File does not exist")
  | .notFile => Except.error (PyErr.systemExit "An Error occur: is not a File")
  | _ => Except.ok ()

/-- Source `FileHandler.read_file` (file.py:252-303): the format-specific pandas
read is wrapped in `try`/`except Exception` whose handler calls
`sys.exit(f"❌ Error reading file: ...")`, so any read/parse failure raises
`SystemExit`.  An ordinary `Exception` from `get_metadata` (evaluated before
the `try`) propagates unchanged. -/
def read_file (o : FileOutcome) : Except PyErr Dataset :=
  match o with
  | .ok d => Except.ok d
  | .parseError m => Except.error (PyErr.systemExit ("❌ Error reading file: " ++ m))
  | .otherExc m => Except.error (PyErr.exc m)
  | .missing => Except.error (PyErr.exc "FileNotFoundError")
  | .notFile => Except.error (PyErr.exc "IsADirectoryError")

/-- One iteration body of the load loops in
`_run_same_visualization_for_all` (visualize.py:647-656) and
`_run_comparison` (visualize.py:727-738): construct the `File`, validate it,
and read it. -/
def loadFile (env : Env) (p : String) : Except PyErr Dataset := do
  let _ ← post_init (env p)
  read_file (env p)

/-- The load loop of the Shared and Comparison modes: each file is loaded in
a `try`/`except Exception` that reports the failure and continues; errors
that are not `Exception` instances (`SystemExit`, `KeyboardInterrupt`)
propagate and terminate the loop. -/
def loadAll (env : Env) : List String → Except PyErr (List (String × Dataset))
  | [] => Except.ok []
  | p :: ps =>
    match loadFile env p with
    | Except.ok d => (loadAll env ps).map (fun t => (p, d) :: t)
    | Except.error (PyErr.exc _) => loadAll env ps
    | Except.error e => Except.error e

/-! ### visualize.py: types, strategies -/

/-- Source `VisualizationType` enum (visualize.py:53-66). -/
inductive VisualizationType where
  | LINE_CHART | BAR_CHART | HISTOGRAM | TABLE
deriving DecidableEq, Repr

/-- The `.value` strings. -/
def VisualizationType.value : VisualizationType → String
  | .LINE_CHART => "Line Chart"
  | .BAR_CHART => "Bar Chart"
  | .HISTOGRAM => "Histogram"
  | .TABLE => "Table"

/-- Source `list(VisualizationType)`. -/
def vizTypes : List VisualizationType :=
  [.LINE_CHART, .BAR_CHART, .HISTOGRAM, .TABLE]

/-- The concrete strategy objects defined in visualize.py. -/
inductive Strategy where
  | lineChart | barChart | histogram | table
deriving DecidableEq, Repr

/-- The `strategies` map built in `VisualizationHandler.__init__`
(visualize.py:297-302).  The `HISTOGRAM` entry is commented out in the
source (line 300), so `strategies.get` returns `None` for it. -/
def strategies : VisualizationType → Option Strategy
  | .LINE_CHART => some .lineChart
  | .BAR_CHART => some .barChart
  | .HISTOGRAM => none
  | .TABLE => some .table

/-- A rendered chart: what the matplotlib calls of each strategy put on the
figure (labels, title, plotted data; for tables the grid handed to
`ax.table`, its header styling, and `ax.axis("off")`). -/
inductive Artifact where
  | line (xlabel ylabel title : String) (points : List (String × String))
  | bar (xlabel ylabel title : String) (points : List (String × String))
  | hist (xlabel title : String) (bins : Int) (values : List String)
  | table (header : List String) (dataRows : List (List String)) (title : String)
      (headerHighlighted axesOff : Bool)
deriving DecidableEq, Repr

/-- Render a `Val` as the string Python would display. -/
def valToStr : Val → String
  | .s v => v
  | .i n => toString n

/-- Source `config.get("title", default)` rendered as a string. -/
def cfgTitle (cfg : Config) (dflt : String) : String :=
  match dictGet cfg "title" with
  | some v => valToStr v
  | none => dflt

/-- Source `DataFrame.head(n)`: first `n` rows for `n ≥ 0`, all but the last `|n|`
rows for negative `n`. -/
def pandasHead (n : Int) (rows : List (List String)) : List (List String) :=
  if 0 ≤ n then rows.take n.toNat else rows.take (rows.length - n.natAbs)

/-- Source `LineChartStrategy.create_visualization` (visualize.py:93-140):
plots `data[x]` against `data[y]` in input row order with the axis labels
taken from the configured column names. -/
def lineChart_create (d : Dataset) (cfg : Config) : Except String Artifact := do
  let x ← getItem d (dictGet cfg "x_axis")
  let y ← getItem d (dictGet cfg "y_axis")
  Except.ok (Artifact.line x.1 y.1 (cfgTitle cfg "Line Chart") (x.2.zip y.2))

/-- Source `BarChartStrategy.create_visualization` (visualize.py:146-178). -/
def barChart_create (d : Dataset) (cfg : Config) : Except String Artifact := do
  let x ← getItem d (dictGet cfg "x_axis")
  let y ← getItem d (dictGet cfg "y_axis")
  Except.ok (Artifact.bar x.1 y.1 (cfgTitle cfg "Bar Chart") (x.2.zip y.2))

/-- Source `HistogramStrategy.create_visualization` (visualize.py:184-218); the
class exists but is never registered in the strategy map.  Missing values
(modelled as empty-string cells) are dropped before binning. -/
def histogram_create (d : Dataset) (cfg : Config) : Except String Artifact := do
  let bins ← (match dictGet cfg "bins" with
    | none => Except.ok (30 : Int)
    | some (Val.i n) => Except.ok n
    | some (Val.s v) => Except.error ("TypeError: bins " ++ v))
  let c ← getItem d (dictGet cfg "column")
  Except.ok (Artifact.hist c.1 (cfgTitle cfg ("Histogram of " ++ c.1)) bins
    (c.2.filter (fun v => v ≠ "")))

/-- Source `TableStrategy.create_visualization` (visualize.py:224-272): renders
`data.head(rows)` as a grid with the column names as a styled header row and
the numeric axes turned off.  The `ax.table` call requires non-empty cell
text: when `display_data` has zero rows, matplotlib evaluates
`len(cellText[0])` on an empty list and raises `IndexError`, which
propagates out of the strategy. -/
def table_create (d : Dataset) (cfg : Config) : Except String Artifact := do
  let rows ← (match dictGet cfg "rows" with
    | none => Except.ok (10 : Int)
    | some (Val.i n) => Except.ok n
    | some (Val.s v) => Except.error ("TypeError: head " ++ v))
  let display := pandasHead rows d.rows
  if display.isEmpty then
    Except.error "IndexError: list index out of range"
  else
    Except.ok (Artifact.table d.cols display
      (cfgTitle cfg "Data Table") true true)

/-- Strategy dispatch: the `create_visualization` method of each strategy. -/
def Strategy.create_visualization : Strategy → Dataset → Config → Except String Artifact
  | .lineChart, d, cfg => lineChart_create d cfg
  | .barChart, d, cfg => barChart_create d cfg
  | .histogram, d, cfg => histogram_create d cfg
  | .table, d, cfg => table_create d cfg

/-! ### visualize.py: VisualizationHandler -/

/-- State of `VisualizationHandler`: the cached
`DataFrame` of the bound file handler (`file_handler.get_data()`; `none`
when the file was never read), the active strategy, and the config dict. -/
structure VisualizationHandler where
  data : Option Dataset
  strategy : Option Strategy
  config : Config
deriving DecidableEq, Repr

/-- Source `VisualizationHandler.set_strategy` (visualize.py:304-312):
`self.strategy = self.strategies.get(viz_type)`; when the map has no entry
the strategy is left unset and a "not implemented yet" warning is printed
(returned here as the second component). -/
def VisualizationHandler.set_strategy (h : VisualizationHandler)
    (t : VisualizationType) : VisualizationHandler × Option String :=
  let s := strategies t
  ({ h with strategy := s },
   if s.isNone then
     some ("⚠️  Visualization type " ++ t.value ++ " not implemented yet")
   else none)

/-- Source `VisualizationHandler.configure` (visualize.py:314-321):
`self.config.update(kwargs)`. -/
def VisualizationHandler.configure (h : VisualizationHandler)
    (kwargs : Config) : VisualizationHandler :=
  { h with config := dictUpdate h.config kwargs }

/-- The outcome of `VisualizationHandler.create_visualization`: an error
message printed instead of rendering, an error caught from the strategy, or
a rendered artifact. -/
inductive RenderResult where
  | errNoStrategy
  | errNoData
  | errCreating (msg : String)
  | ok (a : Artifact)
deriving DecidableEq, Repr

/-- Whether a render produced an artifact. -/
def RenderResult.isOk : RenderResult → Bool
  | .ok _ => true
  | _ => false

/-- Source `VisualizationHandler.create_visualization` (visualize.py:323-344):
print an error and return when no strategy is set or no data is available;
otherwise invoke the strategy inside `try`/`except Exception`, reporting any
error it raises. -/
def VisualizationHandler.create_visualization
    (h : VisualizationHandler) : RenderResult :=
  match h.strategy with
  | none => RenderResult.errNoStrategy
  | some s =>
    match h.data with
    | none => RenderResult.errNoData
    | some d =>
      match s.create_visualization d h.config with
      | Except.ok a => RenderResult.ok a
      | Except.error m => RenderResult.errCreating m

/-! ### visualize.py: interactive prompts -/

/-- One user answer to an `inquirer.select` prompt: choose an entry (the
widget can only return an element of the offered choices) or press the
interrupt key. -/
inductive Sel where
  | pick : Nat → Sel
  | interrupt
deriving DecidableEq, Repr

/-- Source `inquirer.select(choices=...)`: evaluating `default=choices[0]` on an
empty choice list raises `IndexError` before prompting; otherwise the user
either picks an element or raises `KeyboardInterrupt`. -/
def selectFrom {α : Type} (choices : List α) (s : Sel) : Except PyErr α :=
  if choices.isEmpty then
    Except.error (PyErr.exc "IndexError: list index out of range")
  else
    match s with
    | Sel.interrupt => Except.error PyErr.keyboardInterrupt
    | Sel.pick i =>
      match choices[i % choices.length]? with
      | some c => Except.ok c
      | none => Except.error (PyErr.exc "IndexError: list index out of range")

/-- An `inquirer.text` answer: the submitted text, or `none` for an
interrupt. -/
def textFrom (t : Option String) : Except PyErr String :=
  match t with
  | some v => Except.ok v
  | none => Except.error PyErr.keyboardInterrupt

/-- The rows prompt of the Table configuration: its validator only accepts
digit strings whose value is positive, so a submitted answer is a `Nat`;
`none` is an interrupt. -/
def numFrom (t : Option Nat) : Except PyErr Nat :=
  match t with
  | some v => Except.ok v
  | none => Except.error PyErr.keyboardInterrupt

/-- Source `VisualizationHandler.prompt_visualization_type` (visualize.py:346-380):
select among all `VisualizationType` values; both the
`except KeyboardInterrupt` and the `except Exception` handlers return
`None`. -/
def prompt_visualization_type (s : Sel) : Option VisualizationType :=
  match selectFrom vizTypes s with
  | Except.ok t => some t
  | Except.error _ => none

/-- The user answers for one `prompt_configuration` call. -/
structure CfgAnswers where
  xSel : Sel
  ySel : Sel
  titleIn : Option String
  rowsIn : Option Nat
deriving DecidableEq, Repr

/-- The body of `VisualizationHandler.prompt_configuration`
(visualize.py:382-486) before its `except KeyboardInterrupt` handler:
* `HISTOGRAM`: the branch is commented out (`pass`), so the config stays `{}`;
* `TABLE`: prompt for a positive row count and a title;
* line/bar: select an x column and a y column from the column list of the
  dataset
  list, then prompt for a title. -/
def prompt_configuration_core (columns : List String) (t : VisualizationType)
    (ans : CfgAnswers) : Except PyErr Config :=
  match t with
  | VisualizationType.HISTOGRAM => Except.ok []
  | VisualizationType.TABLE => do
      let n ← numFrom ans.rowsIn
      let title ← textFrom ans.titleIn
      Except.ok [("rows", Val.i (Int.ofNat n)), ("title", Val.s title)]
  | _ => do
      let x ← selectFrom columns ans.xSel
      let y ← selectFrom columns ans.ySel
      let title ← textFrom ans.titleIn
      Except.ok [("x_axis", Val.s x), ("y_axis", Val.s y), ("title", Val.s title)]

/-- Source `VisualizationHandler.prompt_configuration` (visualize.py:382-490):
the columns offered come from `file_handler.get_column_names()`; on success
the config of the handler is updated via `configure(**config)` and it is
returned; a `KeyboardInterrupt` anywhere in the prompts is caught and `{}`
is returned with the handler unchanged; other exceptions propagate. -/
def VisualizationHandler.prompt_configuration (h : VisualizationHandler)
    (t : VisualizationType) (ans : CfgAnswers) :
    Except PyErr (VisualizationHandler × Config) :=
  let columns := match h.data with
    | some d => d.cols
    | none => []
  match prompt_configuration_core columns t ans with
  | Except.ok cfg => Except.ok (h.configure cfg, cfg)
  | Except.error PyErr.keyboardInterrupt => Except.ok (h, [])
  | Except.error e => Except.error e

/-- The user actions for one round of the interactive loop. -/
structure RoundAns where
  typeSel : Sel
  cfgAns : CfgAnswers
  renderInterrupt : Bool
  again : Option Bool
deriving DecidableEq, Repr

/-- Source `VisualizationHandler.interactive_visualization` (visualize.py:492-528):
loop of type prompt → `set_strategy` → configuration prompt → render →
continue-confirm.  A cancelled type prompt or an empty config breaks the
loop; `renderInterrupt` models the user interrupting the blocking chart
display (`plt.show`), which raises `KeyboardInterrupt` out of the strategy —
`create_visualization` only catches `Exception`, so it propagates; an
interrupt at the confirm prompt is caught and breaks the loop.  The script
list is the fuel: an exhausted script models the user ending the loop. -/
def interactive_visualization :
    VisualizationHandler → List RoundAns → Except PyErr VisualizationHandler
  | h, [] => Except.ok h
  | h, r :: rest =>
    match prompt_visualization_type r.typeSel with
    | none => Except.ok h
    | some t =>
      let h1 := (h.set_strategy t).1
      match h1.prompt_configuration t r.cfgAns with
      | Except.error e => Except.error e
      | Except.ok (h2, cfg) =>
        if cfg.isEmpty then Except.ok h2
        else
          let res := h2.create_visualization
          if r.renderInterrupt && res.isOk then
            Except.error PyErr.keyboardInterrupt
          else
            match r.again with
            | some true => interactive_visualization h2 rest
            | _ => Except.ok h2

/-! ### visualize.py: VisualizationWorkflow -/

/-- Source `VisualizationWorkflow.setup_file` (visualize.py:549-571): construct and
validate the `File` (`__post_init__` exits on missing/non-file paths),
`sys.exit("❌ Unsupported file type")` when `validate_suffix` fails, then
read the file. -/
def setup_file (env : Env) (p : String) : Except PyErr Dataset := do
  let _ ← post_init (env p)
  if (File.mk p).validate_suffix = false then
    Except.error (PyErr.systemExit "❌ Unsupported file type")
  else
    read_file (env p)

/-- The user answers for the single shared prompt of the Shared mode. -/
structure SharedAnswers where
  typeSel : Sel
  cfgAns : CfgAnswers
deriving DecidableEq, Repr

/-- Outcome of `_run_same_visualization_for_all`: the loop terminated by an
uncaught error, no file loaded, the user cancelled a prompt, or one render
result per loaded file. -/
inductive SharedResult where
  | exited (e : PyErr)
  | noFiles
  | cancelled
  | done (renders : List (String × RenderResult))
deriving DecidableEq, Repr

/-- Source `VisualizationWorkflow._run_same_visualization_for_all`
(visualize.py:635-689): load every file (the per-file `try` catches only
`Exception`); abort when none loaded; prompt for the type and, against the
columns of the first loaded handler, for the configuration — both exactly
once;
then, for each loaded file, build a fresh handler with the same strategy and
a copy of the same config and render. -/
def run_same_visualization_for_all (env : Env) (paths : List String)
    (ans : SharedAnswers) : SharedResult :=
  match loadAll env paths with
  | Except.error e => SharedResult.exited e
  | Except.ok handlers =>
    match handlers with
    | [] => SharedResult.noFiles
    | first :: _ =>
      let vh : VisualizationHandler :=
        { data := some first.2, strategy := none, config := [] }
      match prompt_visualization_type ans.typeSel with
      | none => SharedResult.cancelled
      | some t =>
        let vh1 := (vh.set_strategy t).1
        match vh1.prompt_configuration t ans.cfgAns with
        | Except.error e => SharedResult.exited e
        | Except.ok (_, cfg) =>
          if cfg.isEmpty then SharedResult.cancelled
          else SharedResult.done (handlers.map (fun pd =>
            (pd.1,
             ({ data := some pd.2, strategy := strategies t, config := cfg } :
               VisualizationHandler).create_visualization)))

/-- The per-file render loop of the Shared mode (visualize.py:680-689): for
each loaded file a fresh handler is built with the chosen strategy and a
copy of the shared config, and rendered. -/
def sharedRenders (t : VisualizationType) (cfg : Config)
    (loaded : List (String × Dataset)) : List (String × RenderResult) :=
  loaded.map (fun pd =>
    (pd.1, ({ data := some pd.2, strategy := strategies t, config := cfg } :
      VisualizationHandler).create_visualization))

/-- The user answers for the Comparison mode prompts. -/
structure CompAnswers where
  typeSel : Sel
  xSel : Sel
  ySel : Sel
deriving DecidableEq, Repr

/-- The single overlay figure drawn by `_run_comparison`: one
(name, points) series per dataset containing both chosen columns (only the
line branch draws; the bar branch is `pass`). -/
structure ComparisonChart where
  selectedType : VisualizationType
  xCol : String
  yCol : String
  series : List (String × List (String × String))
  xlabel : String
  ylabel : String
  title : String
deriving DecidableEq, Repr

/-- Outcome of `_run_comparison`. -/
inductive CompResult where
  | exited (e : PyErr)
  | needTwo
  | noCommon
  | chart (c : ComparisonChart)
deriving DecidableEq, Repr

/-- Lexicographic comparison of character lists by code point, the order
Python uses on strings. -/
def charsLe : List Char → List Char → Bool
  | [], _ => true
  | _ :: _, [] => false
  | a :: as, b :: bs =>
      if a.toNat < b.toNat then true
      else if b.toNat < a.toNat then false
      else charsLe as bs

/-- String comparison by code points. -/
def strLe (a b : String) : Bool := charsLe a.toList b.toList

/-- Insert a string into an ascending list (helper for the model of the
Python `sorted` builtin; a structural sort is used so that results are
computable by the kernel). -/
def insertSorted (a : String) : List String → List String
  | [] => [a]
  | b :: t => if strLe a b then a :: b :: t else b :: insertSorted a t

/-- Ascending insertion sort of strings, the model of `sorted(...)`. -/
def sortStrings (l : List String) : List String := l.foldr insertSorted []

/-- The set of columns of the first dataset intersected with the columns of
every later dataset, then `sorted(list(...))` (visualize.py:744-752). -/
def common_columns (ds : List Dataset) : List String :=
  match ds with
  | [] => []
  | d :: rest =>
      sortStrings (rest.foldl
        (fun acc d2 => acc.filter (fun c => d2.cols.contains c)) d.cols.dedup)

/-- Source `VisualizationWorkflow._run_comparison` (visualize.py:714-813): load all
files (per-file `try` catching only `Exception`); hard-stop below two loaded
datasets; abort when the column intersection is empty; offer only Line/Bar,
then an x and a y column from the intersection; draw one series per dataset
that has both columns (line overlay only — the bar branch is an
unimplemented `pass`), legended by file name (modelled by the path). -/
def run_comparison (env : Env) (paths : List String) (ans : CompAnswers) :
    CompResult :=
  match loadAll env paths with
  | Except.error e => CompResult.exited e
  | Except.ok all_data =>
    if all_data.length < 2 then CompResult.needTwo
    else
      let common := common_columns (all_data.map Prod.snd)
      if common.isEmpty then CompResult.noCommon
      else
        match (do
          let t ← selectFrom
            [VisualizationType.LINE_CHART, VisualizationType.BAR_CHART] ans.typeSel
          let x ← selectFrom common ans.xSel
          let y ← selectFrom common ans.ySel
          Except.ok (t, x, y) :
            Except PyErr (VisualizationType × String × String)) with
        | Except.error e => CompResult.exited e
        | Except.ok (t, x, y) =>
          CompResult.chart
            { selectedType := t, xCol := x, yCol := y,
              series :=
                if t = VisualizationType.LINE_CHART then
                  all_data.filterMap (fun it =>
                    if it.2.cols.contains x && it.2.cols.contains y then
                      some (it.1, (it.2.colValues x).zip (it.2.colValues y))
                    else none)
                else [],
              xlabel := x, ylabel := y,
              title := "Comparison: " ++ y ++ " across files" }

/-- How one file of the Independent mode ended. -/
inductive StepTag where
  | ok
  | errCaught (msg : String)
deriving DecidableEq, Repr

/-- How the Independent-mode loop terminated: normally; by the
`except KeyboardInterrupt: break` (skipping the listed remaining files); or
by an uncaught `SystemExit` from file `current` (terminating the process
with the listed files never reached). -/
inductive Terminal where
  | finished
  | interrupted (current : String) (skipped : List String)
  | exitedProc (current : String) (msg : String) (skipped : List String)
deriving DecidableEq, Repr

/-- Trace of an Independent-mode run. -/
structure IndepRun where
  processed : List (String × StepTag)
  terminal : Terminal
deriving DecidableEq, Repr

/-- Source `VisualizationWorkflow._run_different_visualization_for_each`
(visualize.py:691-712): per file, `setup_file` + `setup_visualization`
inside `try`; `except KeyboardInterrupt` breaks (remaining files skipped),
`except Exception` reports and continues; `SystemExit` matches neither
handler and terminates the process. -/
def runIndependent (step : String → Except PyErr Unit) :
    List String → IndepRun
  | [] => ⟨[], Terminal.finished⟩
  | p :: ps =>
    match step p with
    | Except.ok _ =>
        let r := runIndependent step ps
        ⟨(p, StepTag.ok) :: r.processed, r.terminal⟩
    | Except.error PyErr.keyboardInterrupt => ⟨[], Terminal.interrupted p ps⟩
    | Except.error (PyErr.exc m) =>
        let r := runIndependent step ps
        ⟨(p, StepTag.errCaught m) :: r.processed, r.terminal⟩
    | Except.error (PyErr.systemExit m) => ⟨[], Terminal.exitedProc p m ps⟩

/-- Processing of one file in Independent mode: `setup_file` followed by
`setup_visualization` (which runs the interactive session on a fresh
handler bound to the loaded data). -/
def processFile (env : Env) (scripts : String → List RoundAns) (p : String) :
    Except PyErr Unit := do
  let d ← setup_file env p
  let _ ← interactive_visualization
    { data := some d, strategy := none, config := [] } (scripts p)
  Except.ok ()

/-! ### cli.py -/

/-- The filter of `CLI.visualize_files` (cli.py:299-315) restricted to
paths whose `File` validation passes: a path is kept exactly when
`validate_suffix` accepts its extension; the others are reported as
"file is not valid" and skipped. -/
def visualize_files_valid (paths : List String) : List String :=
  paths.filter (fun p => (File.mk p).validate_suffix)

/-- The keys of a config dict, in order. -/
def dictKeys (d : Config) : List String := d.map Prod.fst

/-- The config dict built by the line/bar branch of the configuration
prompt. -/
def axisConfig (x y ttl : String) : Config :=
  [("x_axis", Val.s x), ("y_axis", Val.s y), ("title", Val.s ttl)]

/-! ### Concrete instances used by witnesses and counterexamples -/

/-- A dataset with columns x, y, z. -/
def dsXYZ : Dataset := ⟨["x", "y", "z"], [["1", "2", "3"], ["4", "5", "6"]]⟩

/-- A dataset with columns x, y, w. -/
def dsXYW : Dataset := ⟨["x", "y", "w"], [["7", "8", "9"]]⟩

/-- A dataset with columns p, q — disjoint from `dsXYZ`. -/
def dsPQ : Dataset := ⟨["p", "q"], [["0", "0"]]⟩

/-- A dataset with columns date, value and five rows (the end-to-end
scenario of the spec). -/
def dsDV : Dataset :=
  ⟨["date", "value"],
   [["d1", "10"], ["d2", "11"], ["d3", "12"], ["d4", "13"], ["d5", "14"]]⟩

/-- A second dataset with the same two columns. -/
def dsDV2 : Dataset :=
  ⟨["date", "value"],
   [["e1", "20"], ["e2", "21"], ["e3", "22"], ["e4", "23"], ["e5", "24"]]⟩

/-- A third dataset with the same two columns. -/
def dsDV3 : Dataset :=
  ⟨["date", "value"],
   [["f1", "30"], ["f2", "31"], ["f3", "32"], ["f4", "33"], ["f5", "34"]]⟩

/-- A dataset that has a date column but no value column. -/
def dsNoValue : Dataset := ⟨["date", "other"], [["g1", "40"]]⟩

/-- A loadable dataset with columns but zero rows (e.g. a CSV file holding
only a header line). -/
def dsHeaderOnly : Dataset := ⟨["date", "value"], []⟩

/-- Environment where reading bad.csv raises a parse error and good.csv
loads fine. -/
def envC1 : Env := fun p =>
  if p = "bad.csv" then FileOutcome.parseError "ParserError"
  else if p = "good.csv" then FileOutcome.ok dsXYZ
  else FileOutcome.missing

/-- Environment with three well-formed date/value files. -/
def envShared3 : Env := fun p =>
  if p = "f1.csv" then FileOutcome.ok dsDV
  else if p = "f2.csv" then FileOutcome.ok dsDV2
  else if p = "f3.csv" then FileOutcome.ok dsDV3
  else FileOutcome.missing

/-- Environment where the middle file lacks the value column. -/
def envC5 : Env := fun p =>
  if p = "a.csv" then FileOutcome.ok dsDV
  else if p = "b.csv" then FileOutcome.ok dsNoValue
  else if p = "c.csv" then FileOutcome.ok dsDV2
  else FileOutcome.missing

/-- Environment with two loadable files having disjoint columns. -/
def envDisjoint : Env := fun p =>
  if p = "a.csv" then FileOutcome.ok dsXYZ
  else if p = "b.csv" then FileOutcome.ok dsPQ
  else FileOutcome.missing

/-- Environment with two loadable files sharing columns x and y. -/
def envComp : Env := fun p =>
  if p = "a.csv" then FileOutcome.ok dsXYZ
  else if p = "b.csv" then FileOutcome.ok dsXYW
  else FileOutcome.missing

/-- Environment where one file raises an ordinary `Exception` while being
loaded (e.g. a stat failure in `get_metadata`) and another loads fine. -/
def envOtherExc : Env := fun p =>
  if p = "o.csv" then FileOutcome.otherExc "StatError"
  else if p = "good.csv" then FileOutcome.ok dsDV
  else FileOutcome.missing

/-- Shared-mode answers: pick Line Chart, first and second column as axes,
title T. -/
def ansLine : SharedAnswers :=
  ⟨Sel.pick 0, ⟨Sel.pick 0, Sel.pick 1, some "T", none⟩⟩

/-- Comparison-mode answers: Line Chart, first common column for x, second
for y. -/
def ansComp : CompAnswers := ⟨Sel.pick 0, Sel.pick 0, Sel.pick 1⟩

/-- A session script whose single round renders a line chart and is then
interrupted while the chart is displayed. -/
def scriptRenderKI : String → List RoundAns := fun p =>
  if p = "a.csv" then
    [⟨Sel.pick 0, ⟨Sel.pick 0, Sel.pick 1, some "T", none⟩, true, some false⟩]
  else []

/-- A two-round session script: a line chart round followed by a table
round (switching the chart type within the same session). -/
def scriptSwitch : List RoundAns :=
  [⟨Sel.pick 0, ⟨Sel.pick 0, Sel.pick 1, some "T1", none⟩, false, some true⟩,
   ⟨Sel.pick 3, ⟨Sel.pick 0, Sel.pick 0, some "T2", some 5⟩, false, some false⟩]

/-- A handler mid-session, after a line-chart configuration. -/
def hLineT1 : VisualizationHandler :=
  ⟨some dsDV, some Strategy.lineChart, axisConfig "date" "value" "T1"⟩

/-- A fresh handler for `dsDV` whose bag already has an x-axis entry. -/
def hSessionStart : VisualizationHandler :=
  ⟨some dsDV, none, [("x_axis", Val.s "date")]⟩

/-- The handler state `scriptSwitch` ends with when started from
`hSessionStart`. -/
def hSessionEnd : VisualizationHandler :=
  ⟨some dsDV, some Strategy.table,
   [("x_axis", Val.s "date"), ("y_axis", Val.s "value"),
    ("title", Val.s "T2"), ("rows", Val.i 5)]⟩

/-! ### Helper lemmas about the dict model -/

theorem dictGet_dictSet (d : Config) (k : String) (v : Val) (k' : String) :
    dictGet (dictSet d k v) k' = if k = k' then some v else dictGet d k' := by
  induction d with
  | nil => simp [dictSet, dictGet]
  | cons hd tl ih =>
      obtain ⟨k0, v0⟩ := hd
      by_cases h0 : k0 = k
      · subst h0
        by_cases h1 : k0 = k'
        · subst h1; simp [dictSet, dictGet]
        · simp [dictSet, dictGet, h1]
      · by_cases h1 : k0 = k'
        · subst h1
          have hne : ¬ k = k0 := fun hh => h0 hh.symm
          simp [dictSet, dictGet, h0, hne]
        · simp [dictSet, dictGet, h0, h1, ih]

theorem dictGet_eq_none_of_not_mem (d : Config) (k : String)
    (h : k ∉ dictKeys d) : dictGet d k = none := by
  induction d with
  | nil => rfl
  | cons hd tl ih =>
      obtain ⟨k0, v0⟩ := hd
      simp only [dictKeys, List.map_cons, List.mem_cons] at h
      push_neg at h
      simp [dictGet, Ne.symm h.1, ih h.2]

theorem dictGet_dictUpdate_none (d kwargs : Config) (k : String)
    (h : dictGet kwargs k = none) :
    dictGet (dictUpdate d kwargs) k = dictGet d k := by
  induction kwargs generalizing d with
  | nil => rfl
  | cons hd tl ih =>
      obtain ⟨k0, v0⟩ := hd
      simp only [dictGet] at h
      by_cases h0 : k0 = k
      · simp [h0] at h
      · simp only [h0, if_false] at h
        have : dictUpdate d ((k0, v0) :: tl) = dictUpdate (dictSet d k0 v0) tl := by
          simp [dictUpdate]
        rw [this, ih _ h, dictGet_dictSet]
        simp [h0]

theorem dictGet_dictUpdate_some (d kwargs : Config) (k : String) (v : Val)
    (hnd : (dictKeys kwargs).Nodup) (h : dictGet kwargs k = some v) :
    dictGet (dictUpdate d kwargs) k = some v := by
  induction kwargs generalizing d with
  | nil => simp [dictGet] at h
  | cons hd tl ih =>
      obtain ⟨k0, v0⟩ := hd
      simp only [dictKeys, List.map_cons, List.nodup_cons] at hnd
      have hstep : dictUpdate d ((k0, v0) :: tl) = dictUpdate (dictSet d k0 v0) tl := by
        simp [dictUpdate]
      simp only [dictGet] at h
      by_cases h0 : k0 = k
      · subst h0
        have hv : v0 = v := by simpa using h
        subst hv
        have htl : dictGet tl k0 = none :=
          dictGet_eq_none_of_not_mem _ _ (by simpa [dictKeys] using hnd.1)
        rw [hstep, dictGet_dictUpdate_none _ _ _ htl, dictGet_dictSet]
        simp
      · simp only [h0, if_false] at h
        rw [hstep, ih _ hnd.2 h]

theorem dictGet_isSome_dictUpdate (d kwargs : Config) (k : String)
    (h : (dictGet d k).isSome) : (dictGet (dictUpdate d kwargs) k).isSome := by
  induction kwargs generalizing d with
  | nil => exact h
  | cons hd tl ih =>
      have hstep : dictUpdate d (hd :: tl) = dictUpdate (dictSet d hd.1 hd.2) tl := by
        simp [dictUpdate]
      rw [hstep]
      refine ih _ ?_
      rw [dictGet_dictSet]
      by_cases h0 : hd.1 = k <;> simp [h0, h]

/-! ### Helper lemmas about prompts and strategies -/

theorem selectFrom_mem {α : Type} (choices : List α) (s : Sel) (c : α)
    (h : selectFrom choices s = Except.ok c) : c ∈ choices := by
  unfold selectFrom at h
  split at h
  · exact absurd h (by simp)
  · cases s with
    | interrupt => simp at h
    | pick i =>
        simp only at h
        split at h
        · next c0 hg =>
            obtain rfl : c0 = c := by simpa using h
            exact List.getElem?_mem hg
        · simp at h

theorem getItem_of_mem (d : Dataset) (c : String) (h : c ∈ d.cols) :
    getItem d (some (Val.s c)) = Except.ok (c, d.colValues c) := by
  simp [getItem, List.contains, List.elem_eq_mem, h]

theorem getItem_of_not_mem (d : Dataset) (c : String) (h : c ∉ d.cols) :
    getItem d (some (Val.s c)) = Except.error ("KeyError: " ++ c) := by
  simp [getItem, List.contains, List.elem_eq_mem, h]

theorem axisConfig_get_x (x y ttl : String) :
    dictGet (axisConfig x y ttl) "x_axis" = some (Val.s x) := rfl

theorem axisConfig_get_y (x y ttl : String) :
    dictGet (axisConfig x y ttl) "y_axis" = some (Val.s y) := rfl

theorem axisConfig_title (x y ttl : String) (dflt : String) :
    cfgTitle (axisConfig x y ttl) dflt = ttl := rfl

theorem lineChart_create_of_mem (d : Dataset) (x y ttl : String)
    (hx : x ∈ d.cols) (hy : y ∈ d.cols) :
    lineChart_create d (axisConfig x y ttl) =
      Except.ok (Artifact.line x y ttl
        ((d.colValues x).zip (d.colValues y))) := by
  unfold lineChart_create
  rw [axisConfig_get_x, axisConfig_get_y, getItem_of_mem d x hx,
    getItem_of_mem d y hy]
  rfl

theorem lineChart_create_of_not_mem (d : Dataset) (x y ttl : String)
    (h : x ∉ d.cols ∨ y ∉ d.cols) :
    ∃ m, lineChart_create d (axisConfig x y ttl) = Except.error m := by
  unfold lineChart_create
  rw [axisConfig_get_x, axisConfig_get_y]
  by_cases hx : x ∈ d.cols
  · have hy : y ∉ d.cols := by
      rcases h with h | h
      · exact absurd hx h
      · exact h
    rw [getItem_of_mem d x hx, getItem_of_not_mem d y hy]
    exact ⟨_, rfl⟩
  · rw [getItem_of_not_mem d x hx]
    exact ⟨_, rfl⟩

theorem barChart_create_of_mem (d : Dataset) (x y ttl : String)
    (hx : x ∈ d.cols) (hy : y ∈ d.cols) :
    barChart_create d (axisConfig x y ttl) =
      Except.ok (Artifact.bar x y ttl
        ((d.colValues x).zip (d.colValues y))) := by
  unfold barChart_create
  rw [axisConfig_get_x, axisConfig_get_y, getItem_of_mem d x hx,
    getItem_of_mem d y hy]
  rfl

/-- Where the line/bar render of a handler configured with `axisConfig` can
end up: labels and title always come from the config, never from the
dataset. -/
theorem render_axis_strategy_shape (t : VisualizationType) (d : Dataset)
    (x y ttl : String) (a : Artifact)
    (hsel : t = VisualizationType.LINE_CHART ∨ t = VisualizationType.BAR_CHART)
    (h : ({ data := some d, strategy := strategies t,
            config := axisConfig x y ttl } :
          VisualizationHandler).create_visualization = RenderResult.ok a) :
    (∃ pts, a = Artifact.line x y ttl pts) ∨
    (∃ pts, a = Artifact.bar x y ttl pts) := by
  rcases hsel with rfl | rfl
  · simp only [VisualizationHandler.create_visualization, strategies,
      Strategy.create_visualization] at h
    unfold lineChart_create at h
    rw [axisConfig_get_x, axisConfig_get_y] at h
    by_cases hx : x ∈ d.cols
    · by_cases hy : y ∈ d.cols
      · rw [getItem_of_mem d x hx, getItem_of_mem d y hy] at h
        refine Or.inl ⟨(d.colValues x).zip (d.colValues y), ?_⟩
        have := h
        simp only [Except.bind, bind, pure, Except.pure] at this
        cases this
        rfl
      · rw [getItem_of_mem d x hx, getItem_of_not_mem d y hy] at h
        simp [Except.bind, bind] at h
    · rw [getItem_of_not_mem d x hx] at h
      simp [Except.bind, bind] at h
  · simp only [VisualizationHandler.create_visualization, strategies,
      Strategy.create_visualization] at h
    unfold barChart_create at h
    rw [axisConfig_get_x, axisConfig_get_y] at h
    by_cases hx : x ∈ d.cols
    · by_cases hy : y ∈ d.cols
      · rw [getItem_of_mem d x hx, getItem_of_mem d y hy] at h
        refine Or.inr ⟨(d.colValues x).zip (d.colValues y), ?_⟩
        have := h
        simp only [Except.bind, bind, pure, Except.pure] at this
        cases this
        rfl
      · rw [getItem_of_mem d x hx, getItem_of_not_mem d y hy] at h
        simp [Except.bind, bind] at h
    · rw [getItem_of_not_mem d x hx] at h
      simp [Except.bind, bind] at h

/-! ### Helper lemmas about the common-column intersection -/

theorem mem_foldl_filter_cols (rest : List Dataset) (acc : List String)
    (c : String) :
    (c ∈ rest.foldl
        (fun acc2 d2 => acc2.filter (fun c0 => d2.cols.contains c0)) acc) ↔
      c ∈ acc ∧ ∀ d2 ∈ rest, c ∈ d2.cols := by
  induction rest generalizing acc with
  | nil => simp
  | cons d2 t2 ih =>
      rw [List.foldl_cons, ih]
      simp only [List.mem_filter, List.mem_cons, List.contains,
        List.elem_eq_mem, decide_eq_true_eq]
      constructor
      · rintro ⟨⟨h1, h2⟩, h3⟩
        exact ⟨h1, fun d3 hd3 => by
          rcases hd3 with rfl | hd3
          · exact h2
          · exact h3 d3 hd3⟩
      · rintro ⟨h1, h2⟩
        exact ⟨⟨h1, h2 d2 (by simp)⟩, fun d3 hd3 => h2 d3 (by simp [hd3])⟩

theorem mem_insertSorted (a c : String) (l : List String) :
    c ∈ insertSorted a l ↔ c = a ∨ c ∈ l := by
  induction l with
  | nil => simp [insertSorted]
  | cons b t ih =>
      by_cases h : strLe a b
      · simp [insertSorted, h]
      · simp [insertSorted, h, ih]
        tauto

theorem mem_sortStrings (l : List String) (c : String) :
    c ∈ sortStrings l ↔ c ∈ l := by
  induction l with
  | nil => simp [sortStrings]
  | cons b t ih =>
      have hstep : sortStrings (b :: t) = insertSorted b (sortStrings t) := rfl
      rw [hstep, mem_insertSorted, ih]
      simp

theorem mem_common_columns (d : Dataset) (rest : List Dataset) (c : String) :
    c ∈ common_columns (d :: rest) ↔ c ∈ d.cols ∧ ∀ d2 ∈ rest, c ∈ d2.cols := by
  unfold common_columns
  rw [mem_sortStrings, mem_foldl_filter_cols]
  simp [List.mem_dedup]

/-! ### Helper lemmas about the workflows -/

/-- Evaluation of the Shared mode when loading succeeds with at least one
file and both prompts are answered: the result is one render per loaded
file, every render using the same strategy and the same config. -/
theorem shared_run_eq_done (env : Env) (paths : List String)
    (ans : SharedAnswers) (first : String × Dataset)
    (rest2 : List (String × Dataset)) (t : VisualizationType) (cfg : Config)
    (hload : loadAll env paths = Except.ok (first :: rest2))
    (ht : prompt_visualization_type ans.typeSel = some t)
    (hcfg : prompt_configuration_core first.2.cols t ans.cfgAns = Except.ok cfg)
    (hne : cfg ≠ []) :
    run_same_visualization_for_all env paths ans =
      SharedResult.done (sharedRenders t cfg (first :: rest2)) := by
  unfold run_same_visualization_for_all sharedRenders
  rw [hload]
  simp only
  rw [ht]
  simp only [VisualizationHandler.prompt_configuration,
    VisualizationHandler.set_strategy]
  rw [hcfg]
  simp [List.isEmpty_iff, hne]

/-- The configuration prompt never deletes keys of the config dict. -/
theorem prompt_configuration_keeps_keys (h : VisualizationHandler)
    (t : VisualizationType) (ans : CfgAnswers) (h2 : VisualizationHandler)
    (cfg : Config)
    (hp : h.prompt_configuration t ans = Except.ok (h2, cfg)) (k : String)
    (hs : (dictGet h.config k).isSome) : (dictGet h2.config k).isSome := by
  unfold VisualizationHandler.prompt_configuration at hp
  dsimp only at hp
  split at hp
  · next cfg0 heq =>
      have hh : h.configure cfg0 = h2 ∧ cfg0 = cfg := by simpa using hp
      rw [← hh.1]
      exact dictGet_isSome_dictUpdate _ _ _ hs
  · next heq =>
      obtain ⟨hh, -⟩ : h = h2 ∧ ([] : Config) = cfg := by simpa using hp
      rw [← hh]
      exact hs
  · next e heq hne2 =>
      simp at hp

/-- Binding a strategy never touches the config dict. -/
theorem set_strategy_config (h : VisualizationHandler) (t : VisualizationType) :
    ((h.set_strategy t).1).config = h.config := rfl

/-- No operation of the interactive session ever removes a key from the
config dict: every key present at the start of the session is still present
in the handler the session ends with. -/
theorem interactive_keeps_keys :
    ∀ (script : List RoundAns) (h h2 : VisualizationHandler),
      interactive_visualization h script = Except.ok h2 →
      ∀ k, (dictGet h.config k).isSome → (dictGet h2.config k).isSome := by
  intro script
  induction script with
  | nil =>
      intro h h2 he k hs
      obtain rfl : h = h2 := by simpa [interactive_visualization] using he
      exact hs
  | cons r rest ih =>
      intro h h2 he k hs
      unfold interactive_visualization at he
      cases hpt : prompt_visualization_type r.typeSel with
      | none =>
          rw [hpt] at he
          obtain rfl : h = h2 := by simpa using he
          exact hs
      | some t =>
          rw [hpt] at he
          dsimp only at he
          cases hpc : ((h.set_strategy t).1).prompt_configuration t r.cfgAns with
          | error e => rw [hpc] at he; simp at he
          | ok pr =>
              obtain ⟨hmid, cfg⟩ := pr
              rw [hpc] at he
              have hkeep : (dictGet hmid.config k).isSome := by
                refine prompt_configuration_keeps_keys _ t r.cfgAns _ _ hpc k ?_
                rw [set_strategy_config]
                exact hs
              dsimp only at he
              split at he
              · obtain rfl : hmid = h2 := by simpa using he
                exact hkeep
              · split at he
                · simp at he
                · split at he
                  · exact ih hmid h2 he k hkeep
                  · obtain rfl : hmid = h2 := by simpa using he
                    exact hkeep

/-- In Independent mode, a read/parse failure while loading a file makes
`processFile` raise `SystemExit` (via `sys.exit` in `read_file`), which is
neither a `KeyboardInterrupt` nor an `Exception`. -/
theorem processFile_parse_error (env : Env) (scripts : String → List RoundAns)
    (p : String) (m : String) (h : env p = FileOutcome.parseError m) :
    ∃ m2, processFile env scripts p = Except.error (PyErr.systemExit m2) := by
  unfold processFile setup_file
  rw [h]
  by_cases hv : (File.mk p).validate_suffix
  · refine ⟨"❌ Error reading file: " ++ m, ?_⟩
    simp [post_init, read_file, hv, bind, Except.bind]
  · refine ⟨"❌ Unsupported file type", ?_⟩
    simp [post_init, hv, bind, Except.bind]

/-- A step raising an error of class `Exception` makes `processFile` report
and continue with an unchanged trace of the remaining files
(the `except Exception` branch of the Independent loop). -/
theorem runIndependent_exc (step : String → Except PyErr Unit) (p : String)
    (ps : List String) (m : String) (h : step p = Except.error (PyErr.exc m)) :
    runIndependent step (p :: ps) =
      ⟨(p, StepTag.errCaught m) :: (runIndependent step ps).processed,
       (runIndependent step ps).terminal⟩ := by
  conv_lhs => unfold runIndependent
  rw [h]

theorem runIndependent_ki (step : String → Except PyErr Unit) (p : String)
    (ps : List String) (h : step p = Except.error PyErr.keyboardInterrupt) :
    runIndependent step (p :: ps) = ⟨[], Terminal.interrupted p ps⟩ := by
  conv_lhs => unfold runIndependent
  rw [h]

theorem runIndependent_exit (step : String → Except PyErr Unit) (p : String)
    (ps : List String) (m : String)
    (h : step p = Except.error (PyErr.systemExit m)) :
    runIndependent step (p :: ps) = ⟨[], Terminal.exitedProc p m ps⟩ := by
  conv_lhs => unfold runIndependent
  rw [h]

theorem runIndependent_ok (step : String → Except PyErr Unit) (p : String)
    (ps : List String) (h : step p = Except.ok ()) :
    runIndependent step (p :: ps) =
      ⟨(p, StepTag.ok) :: (runIndependent step ps).processed,
       (runIndependent step ps).terminal⟩ := by
  conv_lhs => unfold runIndependent
  rw [h]

/-- When line/bar configuration prompting succeeds, the config has the
x-axis/y-axis/title shape and both axes were picked from the offered
columns. -/
theorem core_axis_shape (columns : List String) (t : VisualizationType)
    (ans : CfgAnswers) (cfg : Config)
    (hsel : t = VisualizationType.LINE_CHART ∨ t = VisualizationType.BAR_CHART)
    (hcfg : prompt_configuration_core columns t ans = Except.ok cfg) :
    ∃ x y ttl, cfg = axisConfig x y ttl ∧ x ∈ columns ∧ y ∈ columns := by
  have hcore : (do
      let x ← selectFrom columns ans.xSel
      let y ← selectFrom columns ans.ySel
      let title ← textFrom ans.titleIn
      Except.ok [("x_axis", Val.s x), ("y_axis", Val.s y),
        ("title", Val.s title)] : Except PyErr Config) = Except.ok cfg := by
    rcases hsel with rfl | rfl <;> exact hcfg
  simp only [bind, Except.bind] at hcore
  cases hsx : selectFrom columns ans.xSel with
  | error e => rw [hsx] at hcore; cases hcore
  | ok x =>
      rw [hsx] at hcore
      cases hsy : selectFrom columns ans.ySel with
      | error e => rw [hsy] at hcore; cases hcore
      | ok y =>
          rw [hsy] at hcore
          cases hst : textFrom ans.titleIn with
          | error e => rw [hst] at hcore; cases hcore
          | ok ttl =>
              rw [hst] at hcore
              refine ⟨x, y, ttl, ?_, selectFrom_mem _ _ _ hsx,
                selectFrom_mem _ _ _ hsy⟩
              have : ([("x_axis", Val.s x), ("y_axis", Val.s y),
                ("title", Val.s ttl)] : Config) = cfg := by
                simpa using hcore
              rw [← this]
              rfl

/-- A line-chart render succeeds with labels and title from the config when
both configured columns exist in the dataset. -/
theorem render_line_of_mem (d : Dataset) (x y ttl : String)
    (hx : x ∈ d.cols) (hy : y ∈ d.cols) :
    ({ data := some d, strategy := strategies VisualizationType.LINE_CHART,
       config := axisConfig x y ttl } :
      VisualizationHandler).create_visualization =
      RenderResult.ok (Artifact.line x y ttl
        ((d.colValues x).zip (d.colValues y))) := by
  have hc := lineChart_create_of_mem d x y ttl hx hy
  simp [VisualizationHandler.create_visualization, strategies,
    Strategy.create_visualization, hc]

/-- A line-chart render on a dataset missing a configured column ends in a
caught-and-reported error. -/
theorem render_line_of_not_mem (d : Dataset) (x y ttl : String)
    (h : x ∉ d.cols ∨ y ∉ d.cols) :
    ∃ m,
      ({ data := some d, strategy := strategies VisualizationType.LINE_CHART,
         config := axisConfig x y ttl } :
        VisualizationHandler).create_visualization =
        RenderResult.errCreating m := by
  obtain ⟨m, hm⟩ := lineChart_create_of_not_mem d x y ttl h
  refine ⟨m, ?_⟩
  simp [VisualizationHandler.create_visualization, strategies,
    Strategy.create_visualization, hm]

/-- Extraction from a Comparison run that produced a chart: loading
succeeded with at least two datasets, and both chosen columns are members
of the common-column intersection (the only offered choices). -/
theorem run_comparison_chart_spec (env : Env) (paths : List String)
    (ans : CompAnswers) (ch : ComparisonChart)
    (h : run_comparison env paths ans = CompResult.chart ch) :
    ∃ all_data, loadAll env paths = Except.ok all_data ∧
      2 ≤ all_data.length ∧
      ch.xCol ∈ common_columns (all_data.map Prod.snd) ∧
      ch.yCol ∈ common_columns (all_data.map Prod.snd) := by
  unfold run_comparison at h
  cases hl : loadAll env paths with
  | error e => rw [hl] at h; cases h
  | ok all_data =>
      rw [hl] at h
      dsimp only at h
      split at h
      · cases h
      · next hlen =>
          split at h
          · cases h
          · next hcom =>
              split at h
              · cases h
              · next t0 x0 y0 heq =>
                  simp only [bind, Except.bind] at heq
                  cases hst : selectFrom [VisualizationType.LINE_CHART,
                      VisualizationType.BAR_CHART] ans.typeSel with
                  | error e => rw [hst] at heq; cases heq
                  | ok t1 =>
                      rw [hst] at heq
                      cases hsx : selectFrom
                          (common_columns (all_data.map Prod.snd)) ans.xSel with
                      | error e => rw [hsx] at heq; cases heq
                      | ok x1 =>
                          rw [hsx] at heq
                          cases hsy : selectFrom
                              (common_columns (all_data.map Prod.snd)) ans.ySel with
                          | error e => rw [hsy] at heq; cases heq
                          | ok y1 =>
                              rw [hsy] at heq
                              obtain ⟨rfl, rfl, rfl⟩ :
                                  t1 = t0 ∧ x1 = x0 ∧ y1 = y0 := by
                                simpa using heq
                              injection h with hch
                              subst hch
                              exact ⟨all_data, rfl, by omega,
                                selectFrom_mem _ _ _ hsx,
                                selectFrom_mem _ _ _ hsy⟩

/-- A Comparison run over at least two loaded datasets with an empty
column intersection aborts with the no-common-columns error before
prompting or drawing. -/
theorem run_comparison_no_common (env : Env) (paths : List String)
    (ans : CompAnswers) (all_data : List (String × Dataset))
    (hl : loadAll env paths = Except.ok all_data)
    (h2 : 2 ≤ all_data.length)
    (hcom : common_columns (all_data.map Prod.snd) = []) :
    run_comparison env paths ans = CompResult.noCommon := by
  unfold run_comparison
  rw [hl]
  dsimp only
  rw [if_neg (by omega), hcom]
  rfl

/-! ### Claim theorems -/

/-- C1: the claim states that a read or parse failure while loading a
single file of a multi-file batch is caught by the Workflow, reported, and
only that file is skipped.  The code violates this: `FileHandler.read_file`
converts every read/parse error into `sys.exit`, raising `SystemExit`,
which the `except Exception` handler of the load loops does not catch, so
the whole batch terminates.  At the input below, bad.csv fails to parse and
good.csv — which loads fine on its own — is never reached, in both the
Shared and the Comparison mode. -/
theorem c1_parse_error_terminates_batch :
    loadAll envC1 ["bad.csv", "good.csv"] =
      Except.error (PyErr.systemExit "❌ Error reading file: ParserError") ∧
    run_same_visualization_for_all envC1 ["bad.csv", "good.csv"] ansLine =
      SharedResult.exited
        (PyErr.systemExit "❌ Error reading file: ParserError") ∧
    run_comparison envC1 ["bad.csv", "good.csv"] ansComp =
      CompResult.exited
        (PyErr.systemExit "❌ Error reading file: ParserError") ∧
    loadAll envC1 ["good.csv"] = Except.ok [("good.csv", dsXYZ)] ∧
    (PyErr.systemExit "❌ Error reading file: ParserError").isException =
      false :=
  ⟨rfl, rfl, rfl, rfl, rfl⟩

/-- C2: Histogram is a member of the chart-type enumeration but has no
entry in the strategy map, so selecting it leaves no renderer bound and
reports "not implemented yet"; any subsequent render reports an explicit
no-strategy error instead of raising; and the Histogram configuration
prompt returns the empty config (its body is commented out), so the
interactive loop breaks before ever rendering. -/
theorem c2_histogram_not_implemented :
    VisualizationType.HISTOGRAM ∈ vizTypes ∧
    strategies VisualizationType.HISTOGRAM = none ∧
    (∀ h : VisualizationHandler,
      ((h.set_strategy VisualizationType.HISTOGRAM).1).strategy = none ∧
      (h.set_strategy VisualizationType.HISTOGRAM).2 =
        some "⚠️  Visualization type Histogram not implemented yet" ∧
      ((h.set_strategy VisualizationType.HISTOGRAM).1).create_visualization =
        RenderResult.errNoStrategy) ∧
    (∀ (columns : List String) (ans : CfgAnswers),
      prompt_configuration_core columns VisualizationType.HISTOGRAM ans =
        Except.ok []) :=
  ⟨by simp [vizTypes], rfl, fun h => ⟨rfl, rfl, rfl⟩, fun columns ans => rfl⟩

/-- C3 counterexample: the claim states that render() performs no rendering
and emits an explicit error signal whenever the parameter bag is unset.
With the Table strategy bound, data available and an empty parameter bag,
the code invokes the drawing code and renders using the in-strategy
defaults instead of signalling an error. -/
theorem c3_counterexample :
    ({ data := some dsXYZ, strategy := some Strategy.table, config := [] } :
      VisualizationHandler).create_visualization =
      RenderResult.ok (Artifact.table ["x", "y", "z"]
        [["1", "2", "3"], ["4", "5", "6"]] "Data Table" true true) := rfl

/-- C3 amended: render() emits an explicit error signal and performs no
rendering when the active strategy is unset, or when no data is available;
it performs no check of the parameter bag — whenever a strategy is set and
data is available, the drawing code of the strategy is invoked (and an
exception it raises is caught and reported, never propagated). -/
theorem c3_render_requires_strategy_and_data (h : VisualizationHandler) :
    (h.strategy = none →
      h.create_visualization = RenderResult.errNoStrategy) ∧
    (∀ s, h.strategy = some s → h.data = none →
      h.create_visualization = RenderResult.errNoData) ∧
    (∀ s d, h.strategy = some s → h.data = some d →
      h.create_visualization =
        match s.create_visualization d h.config with
        | Except.ok a => RenderResult.ok a
        | Except.error m => RenderResult.errCreating m) := by
  obtain ⟨dat, strat, cfg⟩ := h
  refine ⟨?_, ?_, ?_⟩
  · rintro rfl
    rfl
  · rintro s rfl rfl
    rfl
  · rintro s d rfl rfl
    rfl

/-- C3 witness: the two error signals at concrete handlers. -/
theorem c3_witness :
    ({ data := none, strategy := some Strategy.table, config := [] } :
      VisualizationHandler).create_visualization = RenderResult.errNoData ∧
    ({ data := some dsXYZ, strategy := none, config := [] } :
      VisualizationHandler).create_visualization =
        RenderResult.errNoStrategy :=
  ⟨(c3_render_requires_strategy_and_data _).2.1 Strategy.table rfl rfl,
   (c3_render_requires_strategy_and_data _).1 rfl⟩

/-- C7 counterexample: the claim asserts that for EVERY dataset with R
total rows a Table render with rows = N > 0 contains the first min(N, R)
data rows plus a highlighted header row.  On a loadable dataset with zero
rows (a CSV holding only a header line) the code hands empty cell text to
the matplotlib table call, which raises IndexError; the handler catches and
reports it, and no table — not even the header row — is rendered. -/
theorem c7_counterexample :
    ({ data := some dsHeaderOnly, strategy := some Strategy.table,
       config := [("rows", Val.i 5), ("title", Val.s "tt")] } :
      VisualizationHandler).create_visualization =
      RenderResult.errCreating "IndexError: list index out of range" := rfl

/-- C7 amended: for every dataset with at least one row, a Table render
with a positive rows parameter N shows exactly the first min(N, R) data
rows of the dataset and never more, plus the column names as a highlighted
header row, with the numeric axes turned off; on a dataset with zero rows
the matplotlib table call raises an error that is caught and reported, and
nothing is rendered. -/
theorem c7_table_rows_bound (d : Dataset) (cfg : Config) (n : Int)
    (hget : dictGet cfg "rows" = some (Val.i n)) (hpos : 0 < n) :
    (d.rows ≠ [] →
      ({ data := some d, strategy := some Strategy.table, config := cfg } :
        VisualizationHandler).create_visualization =
        RenderResult.ok (Artifact.table d.cols
          (d.rows.take (min n.toNat d.rows.length))
          (cfgTitle cfg "Data Table") true true) ∧
      (d.rows.take (min n.toNat d.rows.length)).length =
        min n.toNat d.rows.length) ∧
    (d.rows = [] →
      ({ data := some d, strategy := some Strategy.table, config := cfg } :
        VisualizationHandler).create_visualization =
        RenderResult.errCreating "IndexError: list index out of range") := by
  constructor
  · intro hrows
    have htake : d.rows.take n.toNat =
        d.rows.take (min n.toNat d.rows.length) := by
      rw [List.take_eq_take]
      omega
    have hne : (d.rows.take n.toNat) ≠ [] := by
      rw [Ne, List.take_eq_nil_iff]
      push_neg
      refine ⟨?_, hrows⟩
      omega
    constructor
    · simp only [VisualizationHandler.create_visualization,
        Strategy.create_visualization]
      unfold table_create
      rw [hget]
      simp only [bind, Except.bind, pandasHead, if_pos (Int.le_of_lt hpos)]
      rw [if_neg (by simp [hne]), htake]
    · rw [List.length_take]
      omega
  · intro hrows
    simp only [VisualizationHandler.create_visualization,
      Strategy.create_visualization]
    unfold table_create
    rw [hget]
    simp [bind, Except.bind, pandasHead, hrows]

/-- C7 witness: a table render of a two-row dataset where N exceeds the
row count shows both rows, and the same configuration on a zero-row
dataset ends in the caught table error. -/
theorem c7_witness :
    ({ data := some dsXYZ, strategy := some Strategy.table,
       config := [("rows", Val.i 5), ("title", Val.s "tt")] } :
      VisualizationHandler).create_visualization =
      RenderResult.ok (Artifact.table ["x", "y", "z"]
        [["1", "2", "3"], ["4", "5", "6"]] "tt" true true) ∧
    ({ data := some dsHeaderOnly, strategy := some Strategy.table,
       config := [("rows", Val.i 5), ("title", Val.s "tt")] } :
      VisualizationHandler).create_visualization =
      RenderResult.errCreating "IndexError: list index out of range" := by
  constructor
  · have h := (c7_table_rows_bound dsXYZ
      [("rows", Val.i 5), ("title", Val.s "tt")] 5 rfl (by decide)).1
      (by decide)
    rw [h.1]
    rfl
  · exact (c7_table_rows_bound dsHeaderOnly
      [("rows", Val.i 5), ("title", Val.s "tt")] 5 rfl (by decide)).2 rfl

/-- C10: validate_suffix compares the file extension case-sensitively
against the literal set of supported extensions: it accepts exactly those
strings, every supported extension is lowercase, and any path whose suffix
differs from a supported extension only in letter case is rejected as not
valid and filtered out by the CLI. -/
theorem c10_validate_suffix_case_sensitive :
    fileExtensionValues = [".csv", ".xlsx", ".xls", ".json", ".txt"] ∧
    (∀ f : File, f.validate_suffix = true ↔
      f.extension ∈ fileExtensionValues) ∧
    (∀ e ∈ fileExtensionValues, strToLower e = e) ∧
    (∀ p : String, strToLower (pathSuffix p) ∈ fileExtensionValues →
      pathSuffix p ≠ strToLower (pathSuffix p) →
      (File.mk p).validate_suffix = false ∧
      ∀ paths : List String, p ∉ visualize_files_valid paths) := by
  have hiff : ∀ f : File, f.validate_suffix = true ↔
      f.extension ∈ fileExtensionValues := by
    intro f
    simp [File.validate_suffix, List.contains, List.elem_eq_mem]
  have hlowfix : ∀ e ∈ fileExtensionValues, strToLower e = e := by decide
  refine ⟨rfl, hiff, hlowfix, ?_⟩
  intro p hlow hne
  have hval : (File.mk p).validate_suffix = false := by
    cases hb : (File.mk p).validate_suffix with
    | false => rfl
    | true =>
        exfalso
        have hmem : pathSuffix p ∈ fileExtensionValues := (hiff (File.mk p)).mp hb
        exact hne (hlowfix _ hmem).symm
  refine ⟨hval, fun paths hmem2 => ?_⟩
  have hkeep := (List.mem_filter.mp hmem2).2
  rw [hval] at hkeep
  exact Bool.noConfusion hkeep

/-- C4: in Shared mode, once loading has succeeded and the single shared
prompts (chart type, then configuration driven by the columns of the FIRST
successfully-loaded dataset) are answered, every loaded dataset is rendered
with the identical chart type and the identical parameter bag, producing
one render per loaded dataset; for line/bar types the bag has exactly the
x-axis/y-axis/title shape with both axes drawn from the columns of the
first dataset, so every artifact produced carries the same axis labels and
the same title. -/
theorem c4_shared_mode_single_prompt_uniform_config (env : Env)
    (paths : List String) (ans : SharedAnswers) (first : String × Dataset)
    (rest2 : List (String × Dataset)) (t : VisualizationType) (cfg : Config)
    (hload : loadAll env paths = Except.ok (first :: rest2))
    (ht : prompt_visualization_type ans.typeSel = some t)
    (hcfg : prompt_configuration_core first.2.cols t ans.cfgAns =
      Except.ok cfg)
    (hne : cfg ≠ []) :
    run_same_visualization_for_all env paths ans =
      SharedResult.done (sharedRenders t cfg (first :: rest2)) ∧
    (sharedRenders t cfg (first :: rest2)).length =
      (first :: rest2).length ∧
    ((t = VisualizationType.LINE_CHART ∨ t = VisualizationType.BAR_CHART) →
      ∃ x y ttl, cfg = axisConfig x y ttl ∧
        x ∈ first.2.cols ∧ y ∈ first.2.cols ∧
        ∀ pr ∈ sharedRenders t cfg (first :: rest2),
          ∀ a, pr.2 = RenderResult.ok a →
            (∃ pts, a = Artifact.line x y ttl pts) ∨
            (∃ pts, a = Artifact.bar x y ttl pts)) := by
  refine ⟨shared_run_eq_done env paths ans first rest2 t cfg hload ht hcfg hne,
    by simp [sharedRenders], ?_⟩
  intro hsel
  obtain ⟨x, y, ttl, rfl, hx, hy⟩ :=
    core_axis_shape first.2.cols t ans.cfgAns cfg hsel hcfg
  refine ⟨x, y, ttl, rfl, hx, hy, ?_⟩
  intro pr hpr a ha
  obtain ⟨pd, hpd, rfl⟩ := List.mem_map.mp hpr
  exact render_axis_strategy_shape t pd.2 x y ttl a hsel ha

/-- C4 witness: the end-to-end scenario — three date/value files in Shared
mode with a line chart produce exactly three renders sharing strategy and
config. -/
theorem c4_witness :
    run_same_visualization_for_all envShared3
      ["f1.csv", "f2.csv", "f3.csv"] ansLine =
      SharedResult.done (sharedRenders VisualizationType.LINE_CHART
        (axisConfig "date" "value" "T")
        [("f1.csv", dsDV), ("f2.csv", dsDV2), ("f3.csv", dsDV3)]) ∧
    (sharedRenders VisualizationType.LINE_CHART
      (axisConfig "date" "value" "T")
      [("f1.csv", dsDV), ("f2.csv", dsDV2), ("f3.csv", dsDV3)]).length = 3 := by
  have h := c4_shared_mode_single_prompt_uniform_config envShared3
    ["f1.csv", "f2.csv", "f3.csv"] ansLine ("f1.csv", dsDV)
    [("f2.csv", dsDV2), ("f3.csv", dsDV3)] VisualizationType.LINE_CHART
    (axisConfig "date" "value" "T") rfl rfl rfl (by simp [axisConfig])
  exact ⟨h.1, h.2.1⟩

/-- C5: in Shared mode with a line chart configured from the first loaded
dataset, a dataset missing a configured axis column fails only its own
render — the error is caught and recorded — while every dataset containing
both configured columns renders successfully; the batch always produces one
render entry per loaded dataset. -/
theorem c5_shared_mode_missing_column_isolated (env : Env)
    (paths : List String) (ans : SharedAnswers) (first : String × Dataset)
    (rest2 : List (String × Dataset)) (x y ttl : String)
    (hload : loadAll env paths = Except.ok (first :: rest2))
    (ht : prompt_visualization_type ans.typeSel =
      some VisualizationType.LINE_CHART)
    (hcfg : prompt_configuration_core first.2.cols
      VisualizationType.LINE_CHART ans.cfgAns =
      Except.ok (axisConfig x y ttl)) :
    run_same_visualization_for_all env paths ans =
      SharedResult.done (sharedRenders VisualizationType.LINE_CHART
        (axisConfig x y ttl) (first :: rest2)) ∧
    ∀ pd ∈ first :: rest2,
      (x ∈ pd.2.cols → y ∈ pd.2.cols →
        (pd.1, RenderResult.ok (Artifact.line x y ttl
          ((pd.2.colValues x).zip (pd.2.colValues y)))) ∈
          sharedRenders VisualizationType.LINE_CHART (axisConfig x y ttl)
            (first :: rest2)) ∧
      ((x ∉ pd.2.cols ∨ y ∉ pd.2.cols) →
        ∃ m, (pd.1, RenderResult.errCreating m) ∈
          sharedRenders VisualizationType.LINE_CHART (axisConfig x y ttl)
            (first :: rest2)) := by
  refine ⟨shared_run_eq_done env paths ans first rest2 _ _ hload ht hcfg
    (by simp [axisConfig]), ?_⟩
  intro pd hpd
  constructor
  · intro hx hy
    simp only [sharedRenders]
    refine List.mem_map.mpr ⟨pd, hpd, ?_⟩
    rw [render_line_of_mem pd.2 x y ttl hx hy]
  · intro hmiss
    obtain ⟨m, hm⟩ := render_line_of_not_mem pd.2 x y ttl hmiss
    refine ⟨m, ?_⟩
    simp only [sharedRenders]
    refine List.mem_map.mpr ⟨pd, hpd, ?_⟩
    rw [hm]

/-- C5 witness: with a.csv and c.csv having date/value and b.csv lacking
value, only the render of b.csv fails and the other two succeed. -/
theorem c5_witness :
    run_same_visualization_for_all envC5 ["a.csv", "b.csv", "c.csv"]
      ansLine =
      SharedResult.done (sharedRenders VisualizationType.LINE_CHART
        (axisConfig "date" "value" "T")
        [("a.csv", dsDV), ("b.csv", dsNoValue), ("c.csv", dsDV2)]) ∧
    ("c.csv", RenderResult.ok (Artifact.line "date" "value" "T"
      ((dsDV2.colValues "date").zip (dsDV2.colValues "value")))) ∈
      sharedRenders VisualizationType.LINE_CHART
        (axisConfig "date" "value" "T")
        [("a.csv", dsDV), ("b.csv", dsNoValue), ("c.csv", dsDV2)] ∧
    ("b.csv", RenderResult.errCreating "KeyError: value") ∈
      sharedRenders VisualizationType.LINE_CHART
        (axisConfig "date" "value" "T")
        [("a.csv", dsDV), ("b.csv", dsNoValue), ("c.csv", dsDV2)] := by
  have h := c5_shared_mode_missing_column_isolated envC5
    ["a.csv", "b.csv", "c.csv"] ansLine ("a.csv", dsDV)
    [("b.csv", dsNoValue), ("c.csv", dsDV2)] "date" "value" "T"
    rfl rfl rfl
  refine ⟨h.1, ?_, ?_⟩
  · exact (h.2 ("c.csv", dsDV2) (by simp)).1 (by decide) (by decide)
  · exact List.mem_cons_of_mem _ (List.mem_cons_self _ _)

/-- C6: the common-column set of Comparison mode is the exact intersection
of the column names of all loaded datasets; any chart the mode draws has
its x and y columns members of that intersection (they are the only offered
choices); and when at least two datasets load but the intersection is
empty, the mode aborts with the no-common-columns error before drawing
anything. -/
theorem c6_comparison_intersection :
    (∀ (d : Dataset) (rest : List Dataset) (c : String),
      c ∈ common_columns (d :: rest) ↔
        c ∈ d.cols ∧ ∀ d2 ∈ rest, c ∈ d2.cols) ∧
    (∀ (env : Env) (paths : List String) (ans : CompAnswers)
        (ch : ComparisonChart),
      run_comparison env paths ans = CompResult.chart ch →
      ∃ all_data, loadAll env paths = Except.ok all_data ∧
        2 ≤ all_data.length ∧
        ch.xCol ∈ common_columns (all_data.map Prod.snd) ∧
        ch.yCol ∈ common_columns (all_data.map Prod.snd)) ∧
    (∀ (env : Env) (paths : List String) (ans : CompAnswers)
        (all_data : List (String × Dataset)),
      loadAll env paths = Except.ok all_data → 2 ≤ all_data.length →
      common_columns (all_data.map Prod.snd) = [] →
      run_comparison env paths ans = CompResult.noCommon) :=
  ⟨mem_common_columns, run_comparison_chart_spec, run_comparison_no_common⟩

/-- C6 witness: datasets with columns x,y,z and x,y,w have intersection
exactly x,y (so w is not offered), and two loadable files with disjoint
columns abort with the no-common-columns error. -/
theorem c6_witness :
    common_columns [dsXYZ, dsXYW] = ["x", "y"] ∧
    ("w" ∈ common_columns [dsXYZ, dsXYW] ↔
      ("w" ∈ dsXYZ.cols ∧ ∀ d2 ∈ [dsXYW], "w" ∈ d2.cols)) ∧
    run_comparison envDisjoint ["a.csv", "b.csv"] ansComp =
      CompResult.noCommon := by
  refine ⟨by decide, c6_comparison_intersection.1 dsXYZ [dsXYW] "w", ?_⟩
  exact c6_comparison_intersection.2.2 envDisjoint ["a.csv", "b.csv"] ansComp
    [("a.csv", dsXYZ), ("b.csv", dsPQ)] rfl (by decide) (by decide)

/-- C8 counterexample: the claim states that in Independent mode any
exception other than a keyboard interruption raised while processing one
file is caught and processing continues with the next file.  At this input,
reading bad.csv raises SystemExit (an exception that is not a
KeyboardInterrupt), it is not caught, and good.csv is never processed: the
whole run terminates. -/
theorem c8_counterexample :
    processFile envC1 (fun _ => []) "bad.csv" =
      Except.error (PyErr.systemExit "❌ Error reading file: ParserError") ∧
    runIndependent (processFile envC1 (fun _ => []))
      ["bad.csv", "good.csv"] =
      ⟨[], Terminal.exitedProc "bad.csv"
        "❌ Error reading file: ParserError" ["good.csv"]⟩ ∧
    PyErr.systemExit "❌ Error reading file: ParserError" ≠
      PyErr.keyboardInterrupt :=
  ⟨rfl, rfl, by simp⟩

/-- C8 amended: in Independent mode files are processed sequentially; a
KeyboardInterrupt that propagates out of one file (e.g. while a chart is
displayed) breaks the loop, skipping all remaining files; an exception of
class Exception is caught, reported, and processing continues with the next
file exactly as if the batch had started there; but a read/parse failure
raises SystemExit via sys.exit inside read_file, which matches neither
handler and terminates the whole run instead of skipping the file. -/
theorem c8_independent_mode_dispatch
    (step : String → Except PyErr Unit) (p : String) (ps : List String) :
    (step p = Except.error PyErr.keyboardInterrupt →
      runIndependent step (p :: ps) = ⟨[], Terminal.interrupted p ps⟩) ∧
    (∀ m, step p = Except.error (PyErr.exc m) →
      runIndependent step (p :: ps) =
        ⟨(p, StepTag.errCaught m) :: (runIndependent step ps).processed,
         (runIndependent step ps).terminal⟩) ∧
    (∀ m, step p = Except.error (PyErr.systemExit m) →
      runIndependent step (p :: ps) = ⟨[], Terminal.exitedProc p m ps⟩) ∧
    (∀ (env : Env) (scripts : String → List RoundAns) (q m : String),
      env q = FileOutcome.parseError m →
      ∃ m2, processFile env scripts q =
        Except.error (PyErr.systemExit m2)) :=
  ⟨runIndependent_ki step p ps,
   fun m => runIndependent_exc step p ps m,
   fun m => runIndependent_exit step p ps m,
   processFile_parse_error⟩

/-- C8 witness: a keyboard interrupt escaping the first session skips the
remaining file, while a caught Exception lets the batch continue and finish
both files. -/
theorem c8_witness :
    runIndependent (processFile envC5 scriptRenderKI) ["a.csv", "c.csv"] =
      ⟨[], Terminal.interrupted "a.csv" ["c.csv"]⟩ ∧
    runIndependent (processFile envOtherExc (fun _ => []))
      ["o.csv", "good.csv"] =
      ⟨[("o.csv", StepTag.errCaught "StatError"),
        ("good.csv", StepTag.ok)], Terminal.finished⟩ := by
  constructor
  · exact (c8_independent_mode_dispatch
      (processFile envC5 scriptRenderKI) "a.csv" ["c.csv"]).1 rfl
  · rw [(c8_independent_mode_dispatch
      (processFile envOtherExc (fun _ => [])) "o.csv" ["good.csv"]).2.1
      "StatError" rfl]
    rfl

/-- C9: configure updates the parameter bag to the union of its previous
entries and the kwargs, with the kwargs value winning on shared keys and
every other entry left unchanged; binding a strategy never touches the bag,
and no session operation removes keys, so parameters configured for one
chart type are still present in the bag after switching to a different
chart type within the same session. -/
theorem c9_configure_union_persistence :
    (∀ (h : VisualizationHandler) (kwargs : Config) (k : String) (v : Val),
      (dictKeys kwargs).Nodup → dictGet kwargs k = some v →
      dictGet ((h.configure kwargs).config) k = some v) ∧
    (∀ (h : VisualizationHandler) (kwargs : Config) (k : String),
      dictGet kwargs k = none →
      dictGet ((h.configure kwargs).config) k = dictGet h.config k) ∧
    (∀ (h : VisualizationHandler) (t : VisualizationType),
      ((h.set_strategy t).1).config = h.config) ∧
    (∀ (script : List RoundAns) (h h2 : VisualizationHandler),
      interactive_visualization h script = Except.ok h2 →
      ∀ k, (dictGet h.config k).isSome → (dictGet h2.config k).isSome) :=
  ⟨fun h kwargs k v hnd hg => dictGet_dictUpdate_some h.config kwargs k v hnd hg,
   fun h kwargs k hg => dictGet_dictUpdate_none h.config kwargs k hg,
   fun _ _ => rfl,
   interactive_keeps_keys⟩

/-- C9 witness: updating a bag holding line-chart parameters with table
parameters keeps the old x-axis entry and overwrites the shared title key;
a session that renders a line chart and then switches to a table still has
the x-axis parameter in its bag at session end. -/
theorem c9_witness :
    dictGet ((hLineT1.configure
        [("rows", Val.i 5), ("title", Val.s "T2")]).config) "title" =
      some (Val.s "T2") ∧
    dictGet ((hLineT1.configure
        [("rows", Val.i 5), ("title", Val.s "T2")]).config) "x_axis" =
      some (Val.s "date") ∧
    (dictGet hSessionEnd.config "x_axis").isSome := by
  refine ⟨?_, ?_, ?_⟩
  · exact c9_configure_union_persistence.1 hLineT1 _ "title" (Val.s "T2")
      (by decide) rfl
  · exact c9_configure_union_persistence.2.1 hLineT1 _ "x_axis" rfl
  · exact c9_configure_union_persistence.2.2.2 scriptSwitch
      hSessionStart hSessionEnd rfl "x_axis" rfl

/-- C10 witness: a path with an uppercase variant of a supported extension
is rejected. -/
theorem c10_witness :
    (File.mk "data/table.CSV").validate_suffix = false ∧
    "data/table.CSV" ∉ visualize_files_valid ["data/table.CSV", "ok.csv"] :=
  ⟨(c10_validate_suffix_case_sensitive.2.2.2 "data/table.CSV"
      (by decide) (by decide)).1,
   (c10_validate_suffix_case_sensitive.2.2.2 "data/table.CSV"
      (by decide) (by decide)).2 ["data/table.CSV", "ok.csv"]⟩

end Visualize
